import Mathlib

/-!
Verification of the ReviseRight study-aid client.

Shallow embedding of the application's state, its generation fan-out
orchestrator (App.tsx, handleStartProcessing), the AI service wrappers
(services/geminiService.ts), and the dashboard widgets (Dashboard.tsx:
tutor chat, flashcard deck, quiz runner) plus the video-id extractor
(UploadSection.tsx).

External collaborator calls (the generative-AI API) are modelled by an
explicit outcome parameter of type Except String A: Except.error stands
for a thrown/rejected request, Except.ok for a resolved one.  For the
free-text generators the resolved payload is Option String, where none
stands for a missing or falsy response.text (the source applies the
JavaScript or-else idiom to it).  For the structured generators the
resolved payload is the already-parsed list or record; a parse failure
is folded into Except.error, since the source wraps the request and the
JSON.parse in one try block with a single catch.
-/

namespace ReviseRight

/-! ## Data model (types.ts) -/

inductive ViewState where
  | AUTH
  | UPLOAD
  | PROCESSING
  | DASHBOARD
deriving DecidableEq

inductive ExamType where
  | UNIVERSITY
  | COMPETITIVE
  | SCHOOL
  | GENERAL
deriving DecidableEq

inductive TimeFrame where
  | ONE_DAY
  | ONE_WEEK
  | ONE_MONTH
deriving DecidableEq

structure QuizQuestion where
  id : Nat
  question : String
  options : List String
  correctAnswerIndex : Nat
  explanation : String
deriving DecidableEq

structure Flashcard where
  id : Nat
  front : String
  back : String
deriving DecidableEq

structure ExamStrategy where
  priorityTopics : List String
  skipTopics : List String
  focusAdvice : String
deriving DecidableEq

structure LectureData where
  title : String
  transcript : String
  videoUrl : Option String
  videoId : Option String
deriving DecidableEq

structure Chapter where
  timestamp : String
  title : String
  summary : String
deriving DecidableEq

structure Formula where
  expression : String
  description : String
deriving DecidableEq

inductive Sender where
  | user
  | ai
deriving DecidableEq

/-- ChatMessage; the creation time (a Date in the source) is modelled as a
natural number of milliseconds. -/
structure ChatMessage where
  id : String
  sender : Sender
  text : String
  timestamp : Nat
deriving DecidableEq

structure User where
  id : String
  email : String
  name : Option String
deriving DecidableEq

structure AppState where
  view : ViewState
  user : Option User
  lecture : Option LectureData
  examType : ExamType
  timeFrame : TimeFrame
  summary : String
  chapters : List Chapter
  formulas : List Formula
  strategy : Option ExamStrategy
  quiz : List QuizQuestion
  flashcards : List Flashcard
  cheatSheet : String
  chatHistory : List ChatMessage
  error : Option String
  successMessage : Option String
deriving DecidableEq

/-! ## Sign-out and reset (App.tsx) -/

/-- handleSignOut of App.tsx: resets view, user, lecture, summary, quiz and
error; the remaining fields come through the spread of the previous state. -/
def handleSignOut (s : AppState) : AppState :=
  { s with
    view := ViewState.AUTH
    user := none
    lecture := none
    summary := ""
    quiz := []
    error := none }

/-- handleReset of App.tsx: resets view, lecture, summary, quiz and error;
the remaining fields come through the spread of the previous state. -/
def handleReset (s : AppState) : AppState :=
  { s with
    view := ViewState.UPLOAD
    lecture := none
    summary := ""
    quiz := []
    error := none }

/-- A dashboard-stage state with every artifact present, for concrete
evaluation of the handlers. -/
def demoState : AppState :=
  { view := ViewState.DASHBOARD
    user := some { id := "u1", email := "a@b.com", name := some "Jane" }
    lecture := some { title := "T", transcript := "tr", videoUrl := none, videoId := none }
    examType := ExamType.UNIVERSITY
    timeFrame := TimeFrame.ONE_WEEK
    summary := "the summary"
    chapters := [{ timestamp := "00:00", title := "c1", summary := "s1" }]
    formulas := [{ expression := "E=mc2", description := "energy" }]
    strategy := some { priorityTopics := ["a"], skipTopics := ["b"], focusAdvice := "adv" }
    quiz := []
    flashcards := [{ id := 1, front := "f", back := "b" }]
    cheatSheet := "the cheat sheet"
    chatHistory := [{ id := "welcome", sender := Sender.ai, text := "hi", timestamp := 0 }]
    error := none
    successMessage := none }

/-- C4 counterexample: sign-out retains the chat history, the chapters and
the flashcards, and reset retains the cheat sheet, at a concrete dashboard
state — so neither discards the entire StudyBundle. -/
theorem signOut_retains_counterexample :
    (handleSignOut demoState).chatHistory =
      [{ id := "welcome", sender := Sender.ai, text := "hi", timestamp := 0 }] ∧
    (handleSignOut demoState).chapters =
      [{ timestamp := "00:00", title := "c1", summary := "s1" }] ∧
    (handleSignOut demoState).cheatSheet = "the cheat sheet" ∧
    (handleReset demoState).cheatSheet = "the cheat sheet" ∧
    (handleReset demoState).chatHistory =
      [{ id := "welcome", sender := Sender.ai, text := "hi", timestamp := 0 }] := by
  refine ⟨rfl, rfl, rfl, rfl, rfl⟩

/-- C4 (amended): sign-out discards identity, the Lecture, the summary and
the quiz and clears the error, but retains chapters, formulas, strategy,
flashcards, cheat sheet and chat history; reset discards the Lecture, the
summary and the quiz and clears the error, but retains the user and the
same six fields. -/
theorem signOut_reset_frame (s : AppState) :
    (handleSignOut s).view = ViewState.AUTH ∧
    (handleSignOut s).user = none ∧
    (handleSignOut s).lecture = none ∧
    (handleSignOut s).summary = "" ∧
    (handleSignOut s).quiz = [] ∧
    (handleSignOut s).error = none ∧
    (handleSignOut s).chapters = s.chapters ∧
    (handleSignOut s).formulas = s.formulas ∧
    (handleSignOut s).strategy = s.strategy ∧
    (handleSignOut s).flashcards = s.flashcards ∧
    (handleSignOut s).cheatSheet = s.cheatSheet ∧
    (handleSignOut s).chatHistory = s.chatHistory ∧
    (handleReset s).view = ViewState.UPLOAD ∧
    (handleReset s).user = s.user ∧
    (handleReset s).lecture = none ∧
    (handleReset s).summary = "" ∧
    (handleReset s).quiz = [] ∧
    (handleReset s).error = none ∧
    (handleReset s).chapters = s.chapters ∧
    (handleReset s).formulas = s.formulas ∧
    (handleReset s).strategy = s.strategy ∧
    (handleReset s).flashcards = s.flashcards ∧
    (handleReset s).cheatSheet = s.cheatSheet ∧
    (handleReset s).chatHistory = s.chatHistory := by
  refine ⟨rfl, rfl, rfl, rfl, rfl, rfl, rfl, rfl, rfl, rfl, rfl, rfl,
    rfl, rfl, rfl, rfl, rfl, rfl, rfl, rfl, rfl, rfl, rfl, rfl⟩

/-! ## Quiz performance band (Dashboard.tsx, getPerformanceFeedback) -/

structure Feedback where
  title : String
  color : String
  msg : String
deriving DecidableEq

/-- The band as a function of the percentage alone; the source computes the
percentage first and then tests it against the three closed thresholds. -/
def feedbackOfPercentage (percentage : ℚ) : Feedback :=
  if 90 ≤ percentage then
    { title := "Outstanding Mastery!", color := "text-green-400"
      msg := "You have a solid grasp of the core concepts. You are ready!" }
  else if 70 ≤ percentage then
    { title := "Great Progress", color := "text-indigo-400"
      msg := "Good understanding. Review the incorrect answers to refine your knowledge." }
  else if 50 ≤ percentage then
    { title := "Good Start", color := "text-amber-400"
      msg := "You understand the basics, but there are gaps. Check the summary again." }
  else
    { title := "Needs Review", color := "text-red-400"
      msg := "It seems like you struggled. I recommend re-watching the key segments." }

/-- getPerformanceFeedback of Dashboard.tsx: percentage = score / total * 100,
then the three closed threshold tests. -/
def getPerformanceFeedback (score total : Nat) : Feedback :=
  feedbackOfPercentage ((score : ℚ) / (total : ℚ) * 100)

/-- C6: the performance band is a pure function of percentage correct, with
thresholds inclusive at the lower bound of each band; exactly 90 percent is
Outstanding Mastery and 89.99 percent is Great Progress. -/
theorem performance_band_thresholds :
    (∀ score total : Nat,
      getPerformanceFeedback score total =
        feedbackOfPercentage ((score : ℚ) / (total : ℚ) * 100)) ∧
    (∀ p : ℚ, 90 ≤ p → (feedbackOfPercentage p).title = "Outstanding Mastery!") ∧
    (∀ p : ℚ, 70 ≤ p → p < 90 → (feedbackOfPercentage p).title = "Great Progress") ∧
    (∀ p : ℚ, 50 ≤ p → p < 70 → (feedbackOfPercentage p).title = "Good Start") ∧
    (∀ p : ℚ, p < 50 → (feedbackOfPercentage p).title = "Needs Review") ∧
    (feedbackOfPercentage 90).title = "Outstanding Mastery!" ∧
    (feedbackOfPercentage (8999 / 100)).title = "Great Progress" := by
  refine ⟨fun s t => rfl, ?_, ?_, ?_, ?_, ?_, ?_⟩
  · intro p h
    simp [feedbackOfPercentage, h]
  · intro p h1 h2
    rw [feedbackOfPercentage, if_neg (by linarith), if_pos h1]
  · intro p h1 h2
    rw [feedbackOfPercentage, if_neg (by linarith), if_neg (by linarith), if_pos h1]
  · intro p h
    rw [feedbackOfPercentage, if_neg (by linarith), if_neg (by linarith),
      if_neg (by linarith)]
  · rw [feedbackOfPercentage, if_pos (by norm_num)]
  · rw [feedbackOfPercentage, if_neg (by norm_num), if_pos (by norm_num)]

/-- C6 witness: the band theorem applied at the concrete percentages 92 and
75. -/
theorem performance_band_thresholds_witness :
    (feedbackOfPercentage 92).title = "Outstanding Mastery!" ∧
    (feedbackOfPercentage 75).title = "Great Progress" :=
  ⟨performance_band_thresholds.2.1 92 (by norm_num),
   performance_band_thresholds.2.2.1 75 (by norm_num) (by norm_num)⟩

/-! ## Flashcard deck (Dashboard.tsx, FlashcardDeck) -/

structure DeckState where
  currentIndex : Nat
  flipped : Bool
deriving DecidableEq

/-- handleNext of FlashcardDeck: clears the revealed flag and advances the
index to (prev + 1) mod n, where n is the deck size. -/
def handleNext (n : Nat) (s : DeckState) : DeckState :=
  { currentIndex := (s.currentIndex + 1) % n, flipped := false }

/-- handlePrev of FlashcardDeck: clears the revealed flag and moves the
index to (prev - 1 + n) mod n; over natural numbers prev + n - 1 equals the
JavaScript integer expression for every prev and every n at least 1. -/
def handlePrev (n : Nat) (s : DeckState) : DeckState :=
  { currentIndex := (s.currentIndex + n - 1) % n, flipped := false }

theorem handleNext_iterate_index (n : Nat) :
    ∀ (k : Nat) (s : DeckState),
      ((handleNext n)^[k + 1] s).currentIndex = (s.currentIndex + (k + 1)) % n := by
  intro k
  induction k with
  | zero => intro s; rfl
  | succ m ih =>
    intro s
    rw [Function.iterate_succ_apply, ih]
    show ((s.currentIndex + 1) % n + (m + 1)) % n = (s.currentIndex + (m + 1 + 1)) % n
    rw [Nat.mod_add_mod]
    ring_nf

/-- C9: flashcard navigation over a non-empty deck of size n is cyclic in
both directions: n next steps from index 0 return to index 0, and one
previous step at index 0 yields index n - 1. -/
theorem flashcard_navigation_cyclic (n : Nat) (h : 1 ≤ n) :
    ((handleNext n)^[n] { currentIndex := 0, flipped := false }).currentIndex = 0 ∧
    (handlePrev n { currentIndex := 0, flipped := false }).currentIndex = n - 1 := by
  constructor
  · obtain ⟨m, rfl⟩ : ∃ m, n = m + 1 := ⟨n - 1, by omega⟩
    rw [handleNext_iterate_index]
    simp
  · show (0 + n - 1) % n = n - 1
    rw [Nat.zero_add, Nat.mod_eq_of_lt (by omega)]

/-- C9 witness: the cyclic-navigation theorem at deck size 3. -/
theorem flashcard_navigation_cyclic_witness :
    ((handleNext 3)^[3] { currentIndex := 0, flipped := false }).currentIndex = 0 ∧
    (handlePrev 3 { currentIndex := 0, flipped := false }).currentIndex = 2 :=
  flashcard_navigation_cyclic 3 (by decide)

/-! ## AI service wrappers (services/geminiService.ts)

Each wrapper takes the source's own arguments plus an outcome parameter
standing for the external generateContent request (and, for structured
wrappers, the JSON parse of its text). -/

/-- The JavaScript or-else idiom t or fallback applied to a possibly missing
response text: a missing or empty text selects the fallback. -/
def orElseStr (t : Option String) (fallback : String) : String :=
  match t with
  | some s => if s = "" then fallback else s
  | none => fallback

/-- generateSummary: returns the response text (or its fallback line) on
success; on a thrown request it rethrows the wrapped message. -/
def generateSummary (text : String) (outcome : Except String (Option String)) :
    Except String String :=
  match outcome with
  | Except.ok t => Except.ok (orElseStr t "Failed to generate summary.")
  | Except.error _ => Except.error "Could not generate summary."

/-- generateChapters: returns the parsed list; any thrown request or parse
failure is caught and becomes the empty list. -/
def generateChapters (text : String) (outcome : Except String (List Chapter)) :
    List Chapter :=
  match outcome with
  | Except.ok l => l
  | Except.error _ => []

/-- extractFormulas: returns the parsed list; any failure is caught and
becomes the empty list. -/
def extractFormulas (text : String) (outcome : Except String (List Formula)) :
    List Formula :=
  match outcome with
  | Except.ok l => l
  | Except.error _ => []

/-- generateExamStrategy: returns the parsed record; any failure is caught
and becomes the hard-coded default strategy. -/
def generateExamStrategy (text : String) (examType : ExamType) (timeFrame : TimeFrame)
    (outcome : Except String ExamStrategy) : ExamStrategy :=
  match outcome with
  | Except.ok s => s
  | Except.error _ =>
    { priorityTopics := ["Core Concepts"]
      skipTopics := ["Detailed derivations"]
      focusAdvice := "Focus on the main summary points." }

/-- generateQuiz: returns the parsed list unvalidated; any failure is caught
and becomes the empty list. -/
def generateQuiz (text : String) (outcome : Except String (List QuizQuestion)) :
    List QuizQuestion :=
  match outcome with
  | Except.ok l => l
  | Except.error _ => []

/-- generateFlashcards: returns the parsed list; any failure is caught and
becomes the empty list. -/
def generateFlashcards (text : String) (outcome : Except String (List Flashcard)) :
    List Flashcard :=
  match outcome with
  | Except.ok l => l
  | Except.error _ => []

/-- generateCheatSheet: returns the response text (with empty-string
fallback) on success; a thrown request is caught and becomes the resolved
fallback line, so this wrapper never rethrows. -/
def generateCheatSheet (text : String) (outcome : Except String (Option String)) :
    Except String String :=
  match outcome with
  | Except.ok t => Except.ok (orElseStr t "")
  | Except.error _ => Except.ok "Could not generate cheat sheet."

/-- chatWithLecture: returns the response text (or its thinking-trouble
fallback); a thrown request is caught and becomes the apology line, so the
wrapper never rethrows. -/
def chatWithLecture (transcript : String) (history : List (String × String))
    (message : String) (outcome : Except String (Option String)) : String :=
  match outcome with
  | Except.ok t => orElseStr t "I\x27m having trouble thinking right now."
  | Except.error _ => "Sorry, I encountered an error answering that."

/-- C2 counterexample: a thrown cheat-sheet request is caught and resolved
to the fallback line — it does not propagate as a thrown error, so the
free-text pair does not share the summary's propagation policy. -/
theorem cheatSheet_catches_counterexample :
    generateCheatSheet "lecture text" (Except.error "network down") =
      Except.ok "Could not generate cheat sheet." ∧
    generateSummary "lecture text" (Except.error "network down") =
      Except.error "Could not generate summary." := by
  refine ⟨rfl, rfl⟩

/-- C2 (amended): each structured-list generator (chapters, formulas, quiz,
flashcards, strategy) catches a thrown request and returns the empty or
default value; the summary generator propagates a thrown error; the
cheat-sheet generator, however, also catches and resolves to the fallback
line, never propagating. -/
theorem generator_error_policy :
    (∀ text e, generateChapters text (Except.error e) = []) ∧
    (∀ text e, extractFormulas text (Except.error e) = []) ∧
    (∀ text e, generateQuiz text (Except.error e) = []) ∧
    (∀ text e, generateFlashcards text (Except.error e) = []) ∧
    (∀ text et tf e, generateExamStrategy text et tf (Except.error e) =
      { priorityTopics := ["Core Concepts"]
        skipTopics := ["Detailed derivations"]
        focusAdvice := "Focus on the main summary points." }) ∧
    (∀ text e, generateSummary text (Except.error e) =
      Except.error "Could not generate summary.") ∧
    (∀ text outcome, ∃ s, generateCheatSheet text outcome = Except.ok s) := by
  refine ⟨fun _ _ => rfl, fun _ _ => rfl, fun _ _ => rfl, fun _ _ => rfl,
    fun _ _ _ _ => rfl, fun _ _ => rfl, ?_⟩
  intro text outcome
  cases outcome with
  | ok t => exact ⟨orElseStr t "", rfl⟩
  | error e => exact ⟨"Could not generate cheat sheet.", rfl⟩

/-! ## Tutor chat turn (Dashboard.tsx, handleSendMessage) -/

def senderRole (s : Sender) : String :=
  match s with
  | Sender.user => "user"
  | Sender.ai => "ai"

/-- The chat-local state of the Dashboard component. -/
structure ChatState where
  chatMessages : List ChatMessage
  chatInput : String
  isChatLoading : Bool
deriving DecidableEq

/-- The source guards with the falsiness of chatInput.trim(): the guard
fires exactly when the input is whitespace only. -/
def isBlank (s : String) : Bool :=
  s.data.all Char.isWhitespace

/-- handleSendMessage of Dashboard.tsx: a blank input is a no-op; otherwise
the user message is appended, the input cleared, the composing flag raised
for the duration of the request, the reply of chatWithLecture appended as an
assistant message, and the composing flag cleared.  The Date.now() values
are modelled by the parameter now. -/
def handleSendMessage (st : ChatState) (transcript : String)
    (outcome : Except String (Option String)) (now : Nat) : ChatState :=
  if isBlank st.chatInput then st
  else
    let userMsg : ChatMessage :=
      { id := toString now, sender := Sender.user, text := st.chatInput, timestamp := now }
    let reply := chatWithLecture transcript
      (st.chatMessages.map (fun m => (senderRole m.sender, m.text))) userMsg.text outcome
    let aiMsg : ChatMessage :=
      { id := toString (now + 1), sender := Sender.ai, text := reply, timestamp := now }
    { chatMessages := st.chatMessages ++ [userMsg, aiMsg]
      chatInput := ""
      isChatLoading := false }

/-- A dashboard chat state with the seeded greeting and a pending input. -/
def chatState0 : ChatState :=
  { chatMessages := [{ id := "welcome", sender := Sender.ai, text := "hi", timestamp := 0 }]
    chatInput := "What is entropy?"
    isChatLoading := false }

/-- C3 counterexample: at a concrete state, a failing tutor request appends
two messages — the user message and an assistant message carrying the
apology line — so the turn is not abandoned silently. -/
theorem chat_failure_appends_counterexample :
    (handleSendMessage chatState0 "tr" (Except.error "network down") 5).chatMessages =
      [{ id := "welcome", sender := Sender.ai, text := "hi", timestamp := 0 },
       { id := "5", sender := Sender.user, text := "What is entropy?", timestamp := 5 },
       { id := "6", sender := Sender.ai,
         text := "Sorry, I encountered an error answering that.", timestamp := 5 }] := by
  decide

/-- C3 (amended): when the AI request for a tutor chat turn fails, the
service catches the error and returns the apology line, which the turn
appends as an assistant message right after the optimistic user message;
the composing indicator clears and the input is emptied. -/
theorem chat_failure_appends (st : ChatState) (transcript : String) (e : String)
    (now : Nat) (h : isBlank st.chatInput = false) :
    handleSendMessage st transcript (Except.error e) now =
      { chatMessages := st.chatMessages ++
          [{ id := toString now, sender := Sender.user
             text := st.chatInput, timestamp := now },
           { id := toString (now + 1), sender := Sender.ai
             text := "Sorry, I encountered an error answering that.", timestamp := now }]
        chatInput := ""
        isChatLoading := false } := by
  rw [handleSendMessage, if_neg (by simp [h])]
  rfl

/-- C3 witness: the amended chat theorem at a concrete state, request and
clock. -/
theorem chat_failure_appends_witness :
    handleSendMessage chatState0 "tr" (Except.error "boom") 7 =
      { chatMessages := [{ id := "welcome", sender := Sender.ai, text := "hi", timestamp := 0 },
          { id := "7", sender := Sender.user, text := "What is entropy?", timestamp := 7 },
          { id := "8", sender := Sender.ai,
            text := "Sorry, I encountered an error answering that.", timestamp := 7 }]
        chatInput := ""
        isChatLoading := false } :=
  chat_failure_appends chatState0 "tr" "boom" 7 (by decide)

/-! ## Generation fan-out orchestrator (App.tsx, handleStartProcessing) -/

/-- The seeded tutor greeting installed when the join resolves. -/
def welcomeMessage (now : Nat) : ChatMessage :=
  { id := "welcome"
    sender := Sender.ai
    text := "Hi! I am your AI Tutor. I have analyzed the lecture. Ask me anything about the concepts or specific doubts!"
    timestamp := now }

/-- The single aggregate failure banner of the orchestrator. -/
def aiErrorBanner : String :=
  "An error occurred while communicating with the AI. Please try again."

/-- handleStartProcessing of App.tsx.  First state update: view Processing,
the new Lecture and the chosen configuration.  Then the Promise.all join of
the seven generators: if every one resolves, one state update installs all
seven artifacts, the seeded chat history and view Dashboard; if any one
rejects, the catch branch performs one state update to view Upload with the
aggregate error banner and touches nothing else.  Only generateSummary and
generateCheatSheet can reject in principle (the other five catch
internally), so the join is matched on those two. -/
def handleStartProcessing (s : AppState) (text title : String)
    (examType : ExamType) (timeFrame : TimeFrame) (videoId : Option String)
    (oSummary : Except String (Option String))
    (oChapters : Except String (List Chapter))
    (oFormulas : Except String (List Formula))
    (oStrategy : Except String ExamStrategy)
    (oQuiz : Except String (List QuizQuestion))
    (oFlashcards : Except String (List Flashcard))
    (oCheatSheet : Except String (Option String))
    (now : Nat) : AppState :=
  let s1 : AppState :=
    { s with
      view := ViewState.PROCESSING
      lecture := some { title := title, transcript := text, videoUrl := none, videoId := videoId }
      examType := examType
      timeFrame := timeFrame }
  match generateSummary text oSummary with
  | Except.error _ =>
    { s1 with view := ViewState.UPLOAD, error := some aiErrorBanner }
  | Except.ok summary =>
    match generateCheatSheet text oCheatSheet with
    | Except.error _ =>
      { s1 with view := ViewState.UPLOAD, error := some aiErrorBanner }
    | Except.ok cheatSheet =>
      { s1 with
        view := ViewState.DASHBOARD
        summary := summary
        chapters := generateChapters text oChapters
        formulas := extractFormulas text oFormulas
        strategy := some (generateExamStrategy text examType timeFrame oStrategy)
        quiz := generateQuiz text oQuiz
        flashcards := generateFlashcards text oFlashcards
        cheatSheet := cheatSheet
        chatHistory := [welcomeMessage now] }

/-- C1: the fan-out either resolves every artifact request and installs the
fully populated bundle with view Dashboard and the seeded greeting, or a
rejected request yields view Upload with the aggregate error banner and no
bundle field changed — never a partially merged bundle.  The lecture and
configuration fields are set at submission time in both branches. -/
theorem fanout_all_or_nothing (s : AppState) (text title : String)
    (examType : ExamType) (timeFrame : TimeFrame) (videoId : Option String)
    (oSummary : Except String (Option String))
    (oChapters : Except String (List Chapter))
    (oFormulas : Except String (List Formula))
    (oStrategy : Except String ExamStrategy)
    (oQuiz : Except String (List QuizQuestion))
    (oFlashcards : Except String (List Flashcard))
    (oCheatSheet : Except String (Option String))
    (now : Nat) :
    (∃ summary cheatSheet,
      generateSummary text oSummary = Except.ok summary ∧
      generateCheatSheet text oCheatSheet = Except.ok cheatSheet ∧
      handleStartProcessing s text title examType timeFrame videoId
          oSummary oChapters oFormulas oStrategy oQuiz oFlashcards oCheatSheet now =
        { view := ViewState.DASHBOARD
          user := s.user
          lecture := some { title := title, transcript := text, videoUrl := none, videoId := videoId }
          examType := examType
          timeFrame := timeFrame
          summary := summary
          chapters := generateChapters text oChapters
          formulas := extractFormulas text oFormulas
          strategy := some (generateExamStrategy text examType timeFrame oStrategy)
          quiz := generateQuiz text oQuiz
          flashcards := generateFlashcards text oFlashcards
          cheatSheet := cheatSheet
          chatHistory := [welcomeMessage now]
          error := s.error
          successMessage := s.successMessage }) ∨
    (∃ e,
      generateSummary text oSummary = Except.error e ∧
      handleStartProcessing s text title examType timeFrame videoId
          oSummary oChapters oFormulas oStrategy oQuiz oFlashcards oCheatSheet now =
        { view := ViewState.UPLOAD
          user := s.user
          lecture := some { title := title, transcript := text, videoUrl := none, videoId := videoId }
          examType := examType
          timeFrame := timeFrame
          summary := s.summary
          chapters := s.chapters
          formulas := s.formulas
          strategy := s.strategy
          quiz := s.quiz
          flashcards := s.flashcards
          cheatSheet := s.cheatSheet
          chatHistory := s.chatHistory
          error := some aiErrorBanner
          successMessage := s.successMessage }) := by
  cases oSummary with
  | error e =>
    refine Or.inr ⟨"Could not generate summary.", rfl, ?_⟩
    rfl
  | ok t =>
    cases oCheatSheet with
    | ok t2 =>
      refine Or.inl ⟨orElseStr t "Failed to generate summary.", orElseStr t2 "", rfl, rfl, ?_⟩
      rfl
    | error e2 =>
      refine Or.inl ⟨orElseStr t "Failed to generate summary.",
        "Could not generate cheat sheet.", rfl, rfl, ?_⟩
      rfl

/-! ## Video-id extraction (UploadSection.tsx, extractVideoId)

The source matches the URL against one regular expression anchored with a
greedy leading wildcard: the engine settles on the LAST position at which
one of the marker alternatives (youtu.be/ with a wildcard dot, v/, u/ a
word character /, embed/, watch?v=, &v=) matches, captures the following
maximal run of characters other than hash, ampersand and question mark, and
the id is valid exactly when that run has 11 characters.  No two marker
alternatives can match at the same position (their first characters
differ), so alternative order never arbitrates. -/

/-- A word character of the regex class backslash-w: ASCII letter, digit or
underscore. -/
def isWordChar (c : Char) : Bool :=
  c.isAlpha || c.isDigit || c = '_'

/-- A character at which the captured id run stops. -/
def isDelim (c : Char) : Bool :=
  c = '#' || c = '&' || c = '?'

/-- The length of the marker alternative matching at the head of the list,
if any.  The wildcard in the first alternative is the unescaped dot of the
source pattern. -/
def matchMarkerAt : List Char → Option Nat
  | 'y' :: 'o' :: 'u' :: 't' :: 'u' :: _ :: 'b' :: 'e' :: '/' :: _ => some 9
  | 'v' :: '/' :: _ => some 2
  | 'u' :: '/' :: c :: '/' :: _ => if isWordChar c then some 4 else none
  | 'e' :: 'm' :: 'b' :: 'e' :: 'd' :: '/' :: _ => some 6
  | 'w' :: 'a' :: 't' :: 'c' :: 'h' :: '?' :: 'v' :: '=' :: _ => some 8
  | '&' :: 'v' :: '=' :: _ => some 3
  | _ => none

/-- The remainder after the marker at the last matching position, if the
string holds a marker at all — the greedy leading wildcard of the source
pattern backtracks from the right. -/
def findLastMarker : List Char → Option (List Char)
  | [] => none
  | c :: rest =>
    match findLastMarker rest with
    | some r => some r
    | none =>
      match matchMarkerAt (c :: rest) with
      | some n => some ((c :: rest).drop n)
      | none => none

/-- extractVideoId of UploadSection.tsx: the captured run after the last
marker must have exactly 11 characters; otherwise the URL is invalid. -/
def extractVideoId (url : String) : Option String :=
  match findLastMarker url.data with
  | some rest =>
    let candidate := rest.takeWhile (fun c => !(isDelim c))
    if candidate.length = 11 then some (String.mk candidate) else none
  | none => none

/-- C10: the two known URL shapes yield the 11-character id, and any URL
whose captured run after the recognized marker has fewer than 11 characters
is rejected as invalid. -/
theorem extractVideoId_spec :
    extractVideoId "https://www.youtube.com/watch?v=dQw4w9WgXcQ" = some "dQw4w9WgXcQ" ∧
    extractVideoId "https://youtu.be/dQw4w9WgXcQ" = some "dQw4w9WgXcQ" ∧
    (∀ (url : String) (rest : List Char),
      findLastMarker url.data = some rest →
      (rest.takeWhile (fun c => !(isDelim c))).length < 11 →
      extractVideoId url = none) := by
  refine ⟨by decide, by decide, ?_⟩
  intro url rest hfind hlen
  rw [extractVideoId, hfind]
  simp only []
  rw [if_neg (by omega)]

/-- C10 witness: a URL with only three characters after the youtu.be marker
is rejected, by the extraction theorem at that concrete URL. -/
theorem extractVideoId_spec_witness :
    extractVideoId "https://youtu.be/abc" = none :=
  extractVideoId_spec.2.2 "https://youtu.be/abc" ['a', 'b', 'c'] (by decide) (by decide)

/-! ## Quiz runner (Dashboard.tsx, QuizComponent)

The component-local record from question id to chosen option index is a
JavaScript object: one binding per key.  It is modelled as an association
list without repeated keys; setAns is the spread-update of
handleOptionSelect, lookupAns the bracket read, and the length of the list
is the key count the submit guard compares against the question count. -/

def lookupAns : List (Nat × Nat) → Nat → Option Nat
  | [], _ => none
  | (k, v) :: rest, q => if k = q then some v else lookupAns rest q

def setAns : List (Nat × Nat) → Nat → Nat → List (Nat × Nat)
  | [], q, v => [(q, v)]
  | (k, w) :: rest, q, v =>
    if k = q then (k, v) :: rest else (k, w) :: setAns rest q v

structure QuizState where
  userAnswers : List (Nat × Nat)
  showResults : Bool
deriving DecidableEq

def initQuizState : QuizState :=
  { userAnswers := [], showResults := false }

/-- handleOptionSelect of QuizComponent: a no-op once results are shown;
otherwise records the chosen option under the question id. -/
def handleOptionSelect (st : QuizState) (qId optionIdx : Nat) : QuizState :=
  if st.showResults then st
  else { st with userAnswers := setAns st.userAnswers qId optionIdx }

/-- A sequence of user selections applied in order. -/
def applySelections (st : QuizState) (sels : List (Nat × Nat)) : QuizState :=
  sels.foldl (fun s p => handleOptionSelect s p.1 p.2) st

/-- calculateScore of QuizComponent: walks the questions and counts those
whose recorded answer equals the authoritative correct index. -/
def calculateScore (questions : List QuizQuestion) (ans : List (Nat × Nat)) : Nat :=
  questions.foldl
    (fun score q =>
      if lookupAns ans q.id = some q.correctAnswerIndex then score + 1 else score) 0

def quizIds (questions : List QuizQuestion) : List Nat :=
  questions.map (fun q => q.id)

/-- The disabled condition of the Submit Quiz button: the key count of the
answer record is below the question count. -/
def submitDisabled (questions : List QuizQuestion) (st : QuizState) : Bool :=
  decide (st.userAnswers.length < questions.length)

def submitEnabled (questions : List QuizQuestion) (st : QuizState) : Bool :=
  !(submitDisabled questions st)

theorem calculateScore_foldl (ans : List (Nat × Nat)) (qs : List QuizQuestion) (n : Nat) :
    qs.foldl
        (fun score q =>
          if lookupAns ans q.id = some q.correctAnswerIndex then score + 1 else score) n =
      n + qs.countP (fun q => decide (lookupAns ans q.id = some q.correctAnswerIndex)) := by
  induction qs generalizing n with
  | nil => simp
  | cons q t ih =>
    rw [List.foldl_cons, ih, List.countP_cons]
    by_cases h : lookupAns ans q.id = some q.correctAnswerIndex <;> simp [h] <;> omega

theorem lookupAns_setAns (a : List (Nat × Nat)) (q v k : Nat) :
    lookupAns (setAns a q v) k = if q = k then some v else lookupAns a k := by
  induction a with
  | nil =>
    by_cases hk : q = k <;> simp [setAns, lookupAns, hk]
  | cons p rest ih =>
    obtain ⟨pk, pv⟩ := p
    by_cases h : pk = q
    · subst h
      by_cases hk : pk = k <;> simp [setAns, lookupAns, hk]
    · by_cases hk1 : pk = k <;> by_cases hk2 : q = k <;>
        simp_all [setAns, lookupAns]

theorem lookupAns_eq_none (l : List (Nat × Nat)) (k : Nat)
    (h : k ∉ l.map Prod.fst) : lookupAns l k = none := by
  induction l with
  | nil => rfl
  | cons p rest ih =>
    obtain ⟨pk, pv⟩ := p
    simp only [List.map_cons, List.mem_cons] at h
    push_neg at h
    rw [lookupAns, if_neg (fun hc => h.1 hc.symm)]
    exact ih h.2

theorem lookupAns_mem (l : List (Nat × Nat)) (k v : Nat)
    (h : lookupAns l k = some v) : (k, v) ∈ l := by
  induction l with
  | nil => exact absurd h (by simp [lookupAns])
  | cons p rest ih =>
    obtain ⟨pk, pv⟩ := p
    rw [lookupAns] at h
    by_cases hk : pk = k
    · rw [if_pos hk] at h
      subst hk
      obtain rfl : pv = v := by injection h
      exact List.mem_cons_self _ _
    · rw [if_neg hk] at h
      exact List.mem_cons_of_mem _ (ih h)

theorem mem_lookupAns (l : List (Nat × Nat)) (k v : Nat)
    (hn : (l.map Prod.fst).Nodup) (h : (k, v) ∈ l) : lookupAns l k = some v := by
  induction l with
  | nil => exact absurd h (List.not_mem_nil _)
  | cons p rest ih =>
    obtain ⟨pk, pv⟩ := p
    simp only [List.map_cons, List.nodup_cons] at hn
    rcases List.mem_cons.mp h with heq | hmem
    · obtain ⟨rfl, rfl⟩ := Prod.mk.inj heq.symm
      simp [lookupAns]
    · have hk : pk ≠ k := fun hc => by
        apply hn.1
        rw [hc]
        exact List.mem_map_of_mem Prod.fst hmem
      rw [lookupAns, if_neg hk]
      exact ih hn.2 hmem

theorem lookupAns_perm (l1 l2 : List (Nat × Nat)) (hp : l1.Perm l2)
    (hn : (l1.map Prod.fst).Nodup) (k : Nat) : lookupAns l1 k = lookupAns l2 k := by
  have hn2 : (l2.map Prod.fst).Nodup := ((hp.map Prod.fst).nodup_iff).mp hn
  cases h1 : lookupAns l1 k with
  | some v =>
    exact (mem_lookupAns l2 k v hn2 (hp.mem_iff.mp (lookupAns_mem l1 k v h1))).symm
  | none =>
    cases h2 : lookupAns l2 k with
    | none => rfl
    | some v =>
      have := mem_lookupAns l1 k v hn (hp.mem_iff.mpr (lookupAns_mem l2 k v h2))
      rw [h1] at this
      exact absurd this (by simp)

/-- The record after a sequence of updates, starting from any state whose
results flag is down. -/
def updAll (a : List (Nat × Nat)) (sels : List (Nat × Nat)) : List (Nat × Nat) :=
  sels.foldl (fun acc p => setAns acc p.1 p.2) a

theorem applySelections_eq (sels : List (Nat × Nat)) :
    ∀ a : List (Nat × Nat),
      applySelections { userAnswers := a, showResults := false } sels =
        { userAnswers := updAll a sels, showResults := false } := by
  induction sels with
  | nil => intro a; rfl
  | cons p t ih =>
    intro a
    show applySelections { userAnswers := setAns a p.1 p.2, showResults := false } t = _
    rw [ih (setAns a p.1 p.2)]
    rfl

theorem lookupAns_updAll (sels : List (Nat × Nat)) :
    ∀ (a : List (Nat × Nat)) (k : Nat), (sels.map Prod.fst).Nodup →
      lookupAns (updAll a sels) k =
        if k ∈ sels.map Prod.fst then lookupAns sels k else lookupAns a k := by
  induction sels with
  | nil =>
    intro a k _
    simp [updAll, lookupAns]
  | cons p t ih =>
    intro a k hn
    obtain ⟨q, v⟩ := p
    simp only [List.map_cons, List.nodup_cons] at hn
    obtain ⟨hq, ht⟩ := hn
    have step : updAll a ((q, v) :: t) = updAll (setAns a q v) t := rfl
    rw [step, ih (setAns a q v) k ht]
    by_cases hk : k ∈ t.map Prod.fst
    · have hkq : q ≠ k := fun hc => hq (hc ▸ hk)
      rw [if_pos hk, if_pos (by simp [hk]), lookupAns, if_neg hkq]
    · rw [if_neg hk, lookupAns_setAns]
      by_cases hkq : q = k
      · rw [if_pos hkq, if_pos (by simp [hkq]), lookupAns, if_pos hkq]
      · have hnotin : k ∉ List.map Prod.fst ((q, v) :: t) := by
          simp only [List.map_cons, List.mem_cons, not_or]
          exact ⟨fun hc => hkq hc.symm, hk⟩
        rw [if_neg hkq, if_neg hnotin]

/-- C5: the computed score is the count of questions whose recorded answer
equals the authoritative correct index, and two selection sequences that
are permutations of each other (each question selected once) produce the
same score. -/
theorem calculateScore_spec :
    (∀ (questions : List QuizQuestion) (ans : List (Nat × Nat)),
      calculateScore questions ans =
        questions.countP
          (fun q => decide (lookupAns ans q.id = some q.correctAnswerIndex))) ∧
    (∀ (questions : List QuizQuestion) (sels1 sels2 : List (Nat × Nat)),
      sels1.Perm sels2 → (sels1.map Prod.fst).Nodup →
      calculateScore questions (applySelections initQuizState sels1).userAnswers =
        calculateScore questions (applySelections initQuizState sels2).userAnswers) := by
  have part1 : ∀ (questions : List QuizQuestion) (ans : List (Nat × Nat)),
      calculateScore questions ans =
        questions.countP
          (fun q => decide (lookupAns ans q.id = some q.correctAnswerIndex)) := by
    intro qs ans
    rw [calculateScore, calculateScore_foldl]
    omega
  refine ⟨part1, ?_⟩
  intro qs s1 s2 hp hn
  have hn2 : (s2.map Prod.fst).Nodup := ((hp.map Prod.fst).nodup_iff).mp hn
  have ha1 : (applySelections initQuizState s1).userAnswers = updAll [] s1 := by
    rw [show initQuizState = { userAnswers := [], showResults := false } from rfl,
      applySelections_eq]
  have ha2 : (applySelections initQuizState s2).userAnswers = updAll [] s2 := by
    rw [show initQuizState = { userAnswers := [], showResults := false } from rfl,
      applySelections_eq]
  rw [ha1, ha2, part1, part1]
  have pointwise : ∀ k, lookupAns (updAll [] s1) k = lookupAns (updAll [] s2) k := by
    intro k
    rw [lookupAns_updAll s1 [] k hn, lookupAns_updAll s2 [] k hn2]
    have hmem : k ∈ s1.map Prod.fst ↔ k ∈ s2.map Prod.fst := (hp.map Prod.fst).mem_iff
    by_cases hk : k ∈ s1.map Prod.fst
    · rw [if_pos hk, if_pos (hmem.mp hk), lookupAns_perm s1 s2 hp hn k]
    · rw [if_neg hk, if_neg (fun h => hk (hmem.mpr h))]
  have hpred :
      (fun q : QuizQuestion =>
        decide (lookupAns (updAll [] s1) q.id = some q.correctAnswerIndex)) =
      (fun q : QuizQuestion =>
        decide (lookupAns (updAll [] s2) q.id = some q.correctAnswerIndex)) := by
    funext q
    rw [pointwise q.id]
  rw [hpred]

def mkQ (n : Nat) : QuizQuestion :=
  { id := n, question := "q", options := ["a", "b", "c", "d"]
    correctAnswerIndex := 0, explanation := "e" }

def tenQuiz : List QuizQuestion :=
  [mkQ 1, mkQ 2, mkQ 3, mkQ 4, mkQ 5, mkQ 6, mkQ 7, mkQ 8, mkQ 9, mkQ 10]

/-- C5 witness: the score theorem at a concrete quiz and two concrete
selection orders. -/
theorem calculateScore_spec_witness :
    calculateScore tenQuiz (applySelections initQuizState [(1, 2), (2, 0)]).userAnswers =
      calculateScore tenQuiz (applySelections initQuizState [(2, 0), (1, 2)]).userAnswers :=
  calculateScore_spec.2 tenQuiz [(1, 2), (2, 0)] [(2, 0), (1, 2)]
    (List.Perm.swap (2, 0) (1, 2) []) (by decide)

theorem lookupAns_isSome_iff (l : List (Nat × Nat)) (k : Nat) :
    (lookupAns l k).isSome = true ↔ k ∈ l.map Prod.fst := by
  induction l with
  | nil => simp [lookupAns]
  | cons p rest ih =>
    obtain ⟨pk, pv⟩ := p
    by_cases hk : pk = k
    · subst hk
      simp [lookupAns]
    · rw [lookupAns, if_neg hk]
      simp only [List.map_cons, List.mem_cons]
      rw [ih]
      constructor
      · exact Or.inr
      · rintro (rfl | h)
        · exact absurd rfl hk
        · exact h

theorem submitEnabled_iff_le (questions : List QuizQuestion) (st : QuizState) :
    submitEnabled questions st = true ↔
      questions.length ≤ st.userAnswers.length := by
  simp [submitEnabled, submitDisabled, Nat.not_lt]

/-- A nine-of-ten answer record built from nine selections. -/
def nineState : QuizState :=
  applySelections initQuizState
    [(1, 0), (2, 1), (3, 2), (4, 3), (5, 0), (6, 1), (7, 2), (8, 3), (9, 0)]

/-- The tenth selection recorded on top of the nine. -/
def tenState : QuizState :=
  handleOptionSelect nineState 10 1

/-- C7 (amended): provided the question ids are pairwise distinct, and for
any answer record reachable by selections on those questions (its keys are
distinct and drawn from the question ids), submission is enabled exactly
when every question has a recorded answer; with nine of ten questions
answered it is disabled and the tenth selection enables it. -/
theorem submit_enabled_iff :
    (∀ (questions : List QuizQuestion) (st : QuizState),
      (questions.map QuizQuestion.id).Nodup →
      (st.userAnswers.map Prod.fst).Nodup →
      (∀ k ∈ st.userAnswers.map Prod.fst, k ∈ questions.map QuizQuestion.id) →
      (submitEnabled questions st = true ↔
        ∀ q ∈ questions, (lookupAns st.userAnswers q.id).isSome = true)) ∧
    submitEnabled tenQuiz nineState = false ∧
    submitEnabled tenQuiz tenState = true := by
  refine ⟨?_, by decide, by decide⟩
  intro qs st hids hkeys hsub
  have hlen_keys : (st.userAnswers.map Prod.fst).length = st.userAnswers.length :=
    List.length_map _ _
  have hlen_ids : (qs.map QuizQuestion.id).length = qs.length := List.length_map _ _
  have hcard_keys : (st.userAnswers.map Prod.fst).toFinset.card =
      (st.userAnswers.map Prod.fst).length := List.toFinset_card_of_nodup hkeys
  have hcard_ids : (qs.map QuizQuestion.id).toFinset.card =
      (qs.map QuizQuestion.id).length := List.toFinset_card_of_nodup hids
  have hsubF : (st.userAnswers.map Prod.fst).toFinset ⊆
      (qs.map QuizQuestion.id).toFinset := by
    intro x hx
    rw [List.mem_toFinset] at hx ⊢
    exact hsub x hx
  rw [submitEnabled_iff_le]
  constructor
  · intro hge q hq
    have hle : (qs.map QuizQuestion.id).toFinset.card ≤
        (st.userAnswers.map Prod.fst).toFinset.card := by omega
    have heq : (st.userAnswers.map Prod.fst).toFinset =
        (qs.map QuizQuestion.id).toFinset :=
      Finset.eq_of_subset_of_card_le hsubF hle
    have hidmem : q.id ∈ st.userAnswers.map Prod.fst := by
      rw [← List.mem_toFinset, heq, List.mem_toFinset]
      exact List.mem_map_of_mem QuizQuestion.id hq
    exact (lookupAns_isSome_iff _ _).mpr hidmem
  · intro hall
    have hidskeys : (qs.map QuizQuestion.id).toFinset ⊆
        (st.userAnswers.map Prod.fst).toFinset := by
      intro x hx
      rw [List.mem_toFinset] at hx ⊢
      obtain ⟨q, hq, rfl⟩ := List.mem_map.mp hx
      exact (lookupAns_isSome_iff _ _).mp (hall q hq)
    have := Finset.card_le_card hidskeys
    have hfl : (st.userAnswers.map Prod.fst).toFinset.card ≤
        (st.userAnswers.map Prod.fst).length := List.toFinset_card_le _
    omega

/-- C7 witness: the submit theorem at the concrete ten-question quiz with
all ten answers recorded. -/
theorem submit_enabled_iff_witness :
    submitEnabled tenQuiz tenState = true :=
  (submit_enabled_iff.1 tenQuiz tenState (by decide) (by decide) (by decide)).mpr
    (by decide)

/-- A quiz whose two questions share one id. -/
def dupQuiz : List QuizQuestion :=
  [mkQ 1, { mkQ 1 with question := "q2" }]

def dupState : QuizState :=
  handleOptionSelect initQuizState 1 0

/-- C7 counterexample: with two questions sharing one id, one selection
records an answer for every question, yet submission stays disabled — the
source compares the answer-record key count with the question count, not
answeredness per question. -/
theorem submit_enabled_counterexample :
    quizIds dupQuiz = [1, 1] ∧
    (lookupAns dupState.userAnswers (mkQ 1).id).isSome = true ∧
    (lookupAns dupState.userAnswers ({ mkQ 1 with question := "q2" }).id).isSome = true ∧
    submitEnabled dupQuiz dupState = false := by
  decide

/-- A structurally ill-formed question the collaborator could return. -/
def badQuestion : QuizQuestion :=
  { id := 1, question := "Which option?", options := ["a", "b", "c", "d", "e"]
    correctAnswerIndex := 7, explanation := "x" }

/-- C8 counterexample: generateQuiz passes a parsed response through
without validation, so a question with five options and an out-of-range
correct index survives into the bundle. -/
theorem generateQuiz_no_validation_counterexample :
    generateQuiz "lecture text" (Except.ok [badQuestion]) = [badQuestion] ∧
    badQuestion.options.length = 5 ∧
    badQuestion.options.length ≠ 4 ∧
    badQuestion.correctAnswerIndex = 7 ∧
    ¬ badQuestion.correctAnswerIndex < 4 := by
  decide

/-- C8 (amended): quiz generation requests ten four-option questions in its
prompt but never validates the response; the produced questions all have
exactly four options and an in-range correct index only when the parsed
collaborator payload already satisfies that invariant (a failed request
gives the empty list, which satisfies it vacuously). -/
theorem generateQuiz_preserves_wellformed (text : String)
    (outcome : Except String (List QuizQuestion))
    (h : ∀ l, outcome = Except.ok l →
      ∀ q ∈ l, q.options.length = 4 ∧ q.correctAnswerIndex < 4) :
    ∀ q ∈ generateQuiz text outcome,
      q.options.length = 4 ∧ q.correctAnswerIndex < 4 := by
  cases outcome with
  | ok l => exact h l rfl
  | error e =>
    intro q hq
    exact absurd hq (List.not_mem_nil q)

/-- C8 witness: the preservation theorem at a concrete well-formed
payload. -/
theorem generateQuiz_preserves_wellformed_witness :
    (mkQ 1).options.length = 4 ∧ (mkQ 1).correctAnswerIndex < 4 :=
  generateQuiz_preserves_wellformed "lecture text" (Except.ok [mkQ 1])
    (by
      intro l hl
      injection hl with h2
      subst h2
      decide)
    (mkQ 1) (by decide)

end ReviseRight
